import Mathlib

/-!
Verification of the preference-alignment training core of `bert4torch`
(files `bert4torch/trainer/dpo_trainer.py` and
`bert4torch/trainer/ppo_trainer_trl.py`), as a shallow embedding in Lean 4.

Machine tensors are modelled over `ℚ`; a tensor carries its data, its
floating-point dtype tag, and the list of parameter names reachable in its
autograd graph (the parameters that would receive a gradient from a backward
pass started at any loss built only from that tensor).  Running a model inside
`torch.no_grad()` records no graph, so the output's dependency list is empty.

Python context managers are modelled by explicit enter/exit state
transformers.  A `@contextmanager` generator without `try/finally` around its
`yield` does NOT execute the statements after `yield` when the body raises;
the surrounding `with` blocks still run their `__exit__`.  The peft library's
`disable_adapter()` context manager (external collaborator, not part of this
repository) re-enables adapter layers in a `finally` block, so its cleanup
runs on every exit path.
-/

namespace Bert4Torch

/-- Floating point dtype tag of a tensor (`torch.float16` vs `torch.float32`). -/
inductive DType where
  | f16 : DType
  | f32 : DType
deriving DecidableEq, Repr

/-- A tensor: data value, dtype, and the autograd dependencies, i.e. the names
of the parameters that receive a gradient when a backward pass is run from a
loss built only on this tensor.  A tensor produced inside `torch.no_grad()`
has empty `deps`. -/
structure Tensor where
  val : ℚ
  dtype : DType
  deps : List String
deriving DecidableEq, Repr

/-- `tensor.to(torch.float32)`: dtype cast, value and graph membership kept. -/
def Tensor.toF32 (t : Tensor) : Tensor :=
  { t with dtype := DType.f32 }

/-- Parameter `p` receives a gradient from a backward pass out of a loss built
only on tensor `t`. -/
def Tensor.receivesGrad (t : Tensor) (p : String) : Prop :=
  p ∈ t.deps

instance (t : Tensor) (p : String) : Decidable (t.receivesGrad p) := by
  unfold Tensor.receivesGrad; infer_instance

/-- Adapter state of the shared backbone: which named adapter is active
(`set_adapter`) and whether adapter layers are enabled at all
(`disable_adapter` / `enable_adapter_layers`). -/
structure AdapterState where
  active : String
  enabled : Bool
deriving DecidableEq, Repr

/-- A module as consumed by the trainer: named parameters with their
`requires_grad` flags, the function computed by a forward pass (which may
depend on the backbone's adapter state), and the dtype its forward returns
(reduced-precision training returns `f16`). -/
structure ModelM where
  params : List (String × Bool)
  run : AdapterState → ℚ → ℚ
  outDtype : DType

/-- `self._argparse_forward(model, *inputs)`: one forward pass.  With gradient
recording on, the output is connected to every parameter whose
`requires_grad` flag is set; inside `torch.no_grad()` it is connected to
none. -/
def argparseForward (gradEnabled : Bool) (m : ModelM) (st : AdapterState) (x : ℚ) : Tensor :=
  { val := m.run st x
    dtype := m.outDtype
    deps := if gradEnabled then (m.params.filter (fun p => p.2)).map (fun p => p.1) else [] }

/-! ## `DPOTrainer.__init__` (dpo_trainer.py lines 20–141) -/

/-- The constructor arguments of `DPOTrainer.__init__` that decide its
control flow, plus whether the peft library is importable
(`is_peft_available()`). -/
structure DpoInitArgs where
  modelIsStr : Bool
  refModelIsStr : Bool
  modelInitKwargsGiven : Bool
  refModelInitKwargsGiven : Bool
  modelIsPeftModel : Bool
  hasRefModel : Bool
  hasPeftConfig : Bool
  forceUseRefModel : Bool
  modelAdapterName : Option String
  refAdapterName : Option String
  peftAvailable : Bool
deriving DecidableEq, Repr

/-- The `ValueError`s `DPOTrainer.__init__` can raise. -/
inductive DpoInitError where
  | modelKwargsOnInstantiatedModel
  | refModelKwargsOnInstantiatedModel
  | peftNotInstalled
  | refModelTogetherWithPeftConfig
deriving DecidableEq, Repr

/-- The trainer state produced by a successful `DPOTrainer.__init__`:
`self.is_peft_model`, whether `self.ref_model` is set, whether the reference
model's parameters still require grad after freezing, and the two adapter
names. -/
structure DpoTrainerState where
  isPeftModel : Bool
  hasRefModel : Bool
  refParamsRequireGrad : Bool
  modelAdapterName : Option String
  refAdapterName : Option String
deriving DecidableEq, Repr

/-- `DPOTrainer.__init__`, following the source's ordered checks:
kwargs-vs-instantiated guards (lines 35–45), peft availability check
(line 62), the ref_model+peft_config conflict (lines 71–76), then the
unconditional assignments (lines 123–136).  When a `peft_config` is given the
model is wrapped by `get_peft_model` (line 103), so it is a `PeftModel`
afterwards; when `ref_model` is truthy every one of its parameters gets
`requires_grad = False` (lines 131–132).  Note lines 129–136 raise nothing:
`ref_model = None` on a non-peft model is accepted silently. -/
def dpoInit (a : DpoInitArgs) : Except DpoInitError DpoTrainerState :=
  if a.modelInitKwargsGiven ∧ ¬ a.modelIsStr then
    Except.error DpoInitError.modelKwargsOnInstantiatedModel
  else if a.refModelInitKwargsGiven ∧ ¬ a.refModelIsStr then
    Except.error DpoInitError.refModelKwargsOnInstantiatedModel
  else if ¬ a.peftAvailable ∧ a.hasPeftConfig then
    Except.error DpoInitError.peftNotInstalled
  else if a.peftAvailable ∧ a.hasPeftConfig ∧ a.hasRefModel ∧ ¬ a.forceUseRefModel then
    Except.error DpoInitError.refModelTogetherWithPeftConfig
  else
    Except.ok
      { isPeftModel := a.peftAvailable && (a.hasPeftConfig || a.modelIsPeftModel)
        hasRefModel := a.hasRefModel
        refParamsRequireGrad := false
        modelAdapterName := a.modelAdapterName
        refAdapterName := a.refAdapterName }

/-! ## `DPOTrainer.null_ref_context` (dpo_trainer.py lines 155–163)

The generator body is

    with self.unwrap_model().disable_adapter() if self.is_peft_model and
         not self.ref_adapter_name else nullcontext():
        if self.ref_adapter_name:
            self.model.set_adapter(self.ref_adapter_name)
        yield
        if self.ref_adapter_name:
            self.model.set_adapter(self.model_adapter_name or "default")

Entry runs the `with` header and the pre-`yield` statements.  On a normal
exit the post-`yield` statements run, then the `with` block's `__exit__`.
On an exceptional exit the post-`yield` statements are skipped (no
`try/finally` in the generator) while the `with` block's `__exit__` still
runs (peft's `disable_adapter` re-enables adapter layers in a `finally`). -/

/-- The scope uses peft's `disable_adapter()` (rather than `nullcontext()`)
exactly when the model is a peft model and no reference adapter is named. -/
def usesDisableAdapter (s : DpoTrainerState) : Bool :=
  s.isPeftModel && s.refAdapterName.isNone

/-- Entering `null_ref_context`. -/
def nullRefEnter (s : DpoTrainerState) (st : AdapterState) : AdapterState :=
  let st1 := if usesDisableAdapter s then { st with enabled := false } else st
  match s.refAdapterName with
  | some r => { st1 with active := r }
  | none => st1

/-- Exiting `null_ref_context` when the caller's code returned normally. -/
def nullRefExitNormal (s : DpoTrainerState) (st : AdapterState) : AdapterState :=
  let st1 := match s.refAdapterName with
    | some _ => { st with active := s.modelAdapterName.getD "default" }
    | none => st
  if usesDisableAdapter s then { st1 with enabled := true } else st1

/-- Exiting `null_ref_context` when the caller's code raised: the statements
after `yield` are skipped, only the `with` block's `__exit__` runs. -/
def nullRefExitExceptional (s : DpoTrainerState) (st : AdapterState) : AdapterState :=
  if usesDisableAdapter s then { st with enabled := true } else st

/-- The adapter selection the spec's exit rule prescribes after the scope:
the policy's own adapter, or the implicit default identifier, when a
reference adapter is configured; otherwise the pre-entry selection. -/
def prescribedActive (s : DpoTrainerState) (st : AdapterState) : String :=
  match s.refAdapterName with
  | some _ => s.modelAdapterName.getD "default"
  | none => st.active

/-! ## `DPOTrainer._forward` (dpo_trainer.py lines 143–153) -/

/-- The models a constructed `DPOTrainer` holds: `self.model` and an optional
`self.ref_model`. -/
structure DpoModels where
  model : ModelM
  refModel : Option ModelM

/-- `DPOTrainer._forward`: one policy forward with gradient recording, cast
to float32; then inside `torch.no_grad()` either the frozen reference model,
or — when `self.ref_model is None` — the policy model again inside
`null_ref_context`; the reference result is cast to float32 too.  Returns
(policy_logits, reference_logits, adapter state after the call). -/
def dpoForward (s : DpoTrainerState) (ms : DpoModels) (st : AdapterState) (x : ℚ) :
    Tensor × Tensor × AdapterState :=
  let policyLogits := (argparseForward true ms.model st x).toF32
  match ms.refModel with
  | some rm =>
      let referenceLogits := (argparseForward false rm st x).toF32
      (policyLogits, referenceLogits, st)
  | none =>
      let st1 := nullRefEnter s st
      let referenceLogits := (argparseForward false ms.model st1 x).toF32
      let st2 := nullRefExitNormal s st1
      (policyLogits, referenceLogits, st2)

/-! ## `PPOTrainerTrl` (ppo_trainer_trl.py)

The PPO trainer's mutable fields relevant to the update cycle:
`self.generation.decoder.with_lm`, the `self.ppo_step` gating flag, the
staged batch (`self.question_tensors`, `self.response_tensors`,
`self.rewards`) and — for the specification of "at most one update" — a
count of how many times the external `trl.PPOTrainer.step` has been
invoked. -/

/-- The staged batch consumed by one policy-gradient step. -/
structure StagedBatch where
  questionTensors : List (List ℤ)
  responseTensors : List (List ℤ)
  rewards : List ℚ
deriving DecidableEq, Repr

/-- Mutable state of a `PPOTrainerTrl` between calls. -/
structure PpoState where
  withLm : Bool
  ppoStep : Bool
  staged : StagedBatch
  updateCount : ℕ
deriving DecidableEq, Repr

/-- `PPOTrainerTrl.step` (lines 61–64): if the gating flag is set, clear it
and invoke `trl.PPOTrainer.step` on the staged batch (one policy-gradient
update, returning its statistics); otherwise fall through and return `None`.
The external update is abstracted as `ppoUpdate : StagedBatch → ℚ` returning
the statistics (modelled by the total-loss scalar). -/
def ppoTrlStep (ppoUpdate : StagedBatch → ℚ) (s : PpoState) : Option ℚ × PpoState :=
  if s.ppoStep then
    (some (ppoUpdate s.staged),
      { s with ppoStep := false, updateCount := s.updateCount + 1 })
  else
    (none, s)

/-- The generation phase of `PPOTrainerTrl.train_step` (lines 41–43):

    self.generation.decoder.with_lm = True
    response_tensors = self.generation.batch_generate(question_tensors, ...)
    self.generation.decoder.with_lm = False

`batchGenerate` models the external generation component; it reads the
decoder's `with_lm` flag and may raise (`Except.error`).  There is no
`try/finally`: when generation raises, the exception propagates before the
`with_lm = False` assignment runs. -/
def generatePhase (batchGenerate : Bool → List (List ℤ) → Except String (List (List ℤ)))
    (s : PpoState) (questionTensors : List (List ℤ)) :
    Except String (List (List ℤ)) × PpoState :=
  let s1 := { s with withLm := true }
  match batchGenerate s1.withLm questionTensors with
  | Except.ok resp => (Except.ok resp, { s1 with withLm := false })
  | Except.error e => (Except.error e, s1)

/-- Arithmetic mean of a list of rationals (`torch.mean` on the flattened
tensor); `0` on the empty list, where torch would give NaN. -/
def listMean (xs : List ℚ) : ℚ :=
  xs.sum / (xs.length : ℚ)

/-- `PPOTrainerTrl.calculate_rewards` (lines 67–84): for each score tensor,
a single-element tensor contributes its element minus the baseline, any
other tensor contributes the mean of its elements minus the baseline.  Score
tensors are modelled as lists of rationals (every score coming out of
`get_reward_model_output` is a tensor, so the `isinstance` guard always
holds). -/
def calculate_rewards (rewardScoreOutputs : List (List ℚ)) (rewardBaseline : ℚ) : List ℚ :=
  rewardScoreOutputs.map (fun score =>
    match score with
    | [x] => x - rewardBaseline
    | _ => listMean score - rewardBaseline)

/-! ## Claim theorems -/

/-- C1: For every batch, the reference-side logits returned by
`DPOTrainer._forward` are computed entirely inside `torch.no_grad()`, so a
backward pass from a loss built only on the reference output produces no
gradient on any policy or reference parameter, in the separate-reference-model
mode and in the null-reference mode alike. -/
theorem dpo_reference_logits_no_grad (s : DpoTrainerState) (ms : DpoModels)
    (st : AdapterState) (x : ℚ) (p : String) :
    ¬ (dpoForward s ms st x).2.1.receivesGrad p := by
  unfold dpoForward Tensor.receivesGrad argparseForward Tensor.toF32
  cases ms.refModel <;> simp

/-- C8: `DPOTrainer._forward` returns (policy_logits, reference_logits) both
cast to float32; the policy logits come from the policy model with gradient
recording (connected to exactly its `requires_grad` parameters), and the
reference logits come from the frozen reference model when one exists and
otherwise from the policy model evaluated inside `null_ref_context`, on the
same input in every case, carrying no gradient dependencies. -/
theorem dpo_forward_contract (s : DpoTrainerState) (ms : DpoModels)
    (st : AdapterState) (x : ℚ) :
    (dpoForward s ms st x).1.dtype = DType.f32 ∧
    (dpoForward s ms st x).2.1.dtype = DType.f32 ∧
    (dpoForward s ms st x).1.val = ms.model.run st x ∧
    (dpoForward s ms st x).1.deps =
      (ms.model.params.filter (fun p => p.2)).map (fun p => p.1) ∧
    (dpoForward s ms st x).2.1.deps = [] ∧
    (∀ rm, ms.refModel = some rm → (dpoForward s ms st x).2.1.val = rm.run st x) ∧
    (ms.refModel = none →
      (dpoForward s ms st x).2.1.val = ms.model.run (nullRefEnter s st) x) := by
  unfold dpoForward argparseForward Tensor.toF32
  cases h : ms.refModel <;> simp [h]

/-- Closed witness for C8: evaluate the contract on a one-parameter policy
model with no reference model. -/
theorem dpo_forward_contract_witness :
    (dpoForward
      { isPeftModel := false, hasRefModel := false, refParamsRequireGrad := false,
        modelAdapterName := none, refAdapterName := none }
      { model := { params := [("w", true)], run := fun _ x => x + 1, outDtype := DType.f16 },
        refModel := none }
      { active := "default", enabled := true } 3).2.1.val = 4 := by
  have h := (dpo_forward_contract
    { isPeftModel := false, hasRefModel := false, refParamsRequireGrad := false,
      modelAdapterName := none, refAdapterName := none }
    { model := { params := [("w", true)], run := fun _ x => x + 1, outDtype := DType.f16 },
      refModel := none }
    { active := "default", enabled := true } 3).2.2.2.2.2.2 rfl
  rw [h]; norm_num [nullRefEnter, usesDisableAdapter]

/-- C2 counterexample: in named-reference-adapter mode
(`ref_adapter_name = "ref"`, no prior policy adapter name), when the code
inside the scope raises, the active adapter after exit is still `"ref"`
rather than the `"default"` the exit rule prescribes: the post-`yield`
restore is skipped because the generator has no `try/finally`. -/
theorem null_ref_exception_counterexample :
    (nullRefExitExceptional
      { isPeftModel := true, hasRefModel := false, refParamsRequireGrad := false,
        modelAdapterName := none, refAdapterName := some "ref" }
      (nullRefEnter
        { isPeftModel := true, hasRefModel := false, refParamsRequireGrad := false,
          modelAdapterName := none, refAdapterName := some "ref" }
        { active := "default", enabled := true })).active = "ref" ∧
    prescribedActive
      { isPeftModel := true, hasRefModel := false, refParamsRequireGrad := false,
        modelAdapterName := none, refAdapterName := some "ref" }
      { active := "default", enabled := true } = "default" := by
  exact ⟨rfl, rfl⟩

/-- C2 amended: on a normal exit the prescribed cleanup always runs, and in
adapter-disable mode (`disable_adapter`, whose peft implementation re-enables
in a `finally`) the exceptional exit coincides with the normal one; but in
named-reference-adapter mode an exception inside the scope skips the
post-`yield` restore, leaving the reference adapter active (adapter layers
are still re-enabled whenever the disable-adapter context was used). -/
theorem null_ref_cleanup_amended (s : DpoTrainerState) (st : AdapterState) :
    (nullRefExitNormal s (nullRefEnter s st)).active = prescribedActive s st ∧
    (s.refAdapterName = none →
      nullRefExitExceptional s (nullRefEnter s st) =
        nullRefExitNormal s (nullRefEnter s st)) ∧
    (∀ r, s.refAdapterName = some r →
      (nullRefExitExceptional s (nullRefEnter s st)).active = r) ∧
    (usesDisableAdapter s = true →
      (nullRefExitExceptional s (nullRefEnter s st)).enabled = true) := by
  unfold nullRefEnter nullRefExitNormal nullRefExitExceptional prescribedActive
    usesDisableAdapter
  cases h : s.refAdapterName <;> cases hp : s.isPeftModel <;> simp [h, hp]

/-- Closed witness for the amended C2: with a named reference adapter
`"r0"`, the exceptional exit leaves `"r0"` active. -/
theorem null_ref_cleanup_amended_witness :
    (nullRefExitExceptional
      { isPeftModel := true, hasRefModel := false, refParamsRequireGrad := false,
        modelAdapterName := some "pol", refAdapterName := some "r0" }
      (nullRefEnter
        { isPeftModel := true, hasRefModel := false, refParamsRequireGrad := false,
          modelAdapterName := some "pol", refAdapterName := some "r0" }
        { active := "pol", enabled := true })).active = "r0" :=
  (null_ref_cleanup_amended
    { isPeftModel := true, hasRefModel := false, refParamsRequireGrad := false,
      modelAdapterName := some "pol", refAdapterName := some "r0" }
    { active := "pol", enabled := true }).2.2.1 "r0" rfl

/-- C3 counterexample: with a named reference adapter and no configured
policy adapter name, entering the scope from pre-entry selection `"other"`
and exiting normally yields active adapter `"default"`, not the pre-entry
`"other"`: enter-then-exit is not the identity on the adapter selection. -/
theorem null_ref_identity_counterexample :
    (nullRefExitNormal
      { isPeftModel := true, hasRefModel := false, refParamsRequireGrad := false,
        modelAdapterName := none, refAdapterName := some "ref" }
      (nullRefEnter
        { isPeftModel := true, hasRefModel := false, refParamsRequireGrad := false,
          modelAdapterName := none, refAdapterName := some "ref" }
        { active := "other", enabled := true })).active ≠ "other" := by
  intro h
  simp [nullRefExitNormal, nullRefEnter, usesDisableAdapter] at h

/-- C3 amended: a normal exit sets the active adapter to the configured
policy adapter name (`model_adapter_name`), or the literal `"default"`
identifier when none is configured — a fixed target, not the pre-entry
selection.  In adapter-disable mode (no named reference adapter) the
selection is never modified, so enter-then-exit is the identity there; in
named-reference-adapter mode it is the identity exactly when the pre-entry
selection already equals that configured target. -/
theorem null_ref_restore_amended (s : DpoTrainerState) (st : AdapterState) :
    (s.refAdapterName = none →
      (nullRefExitNormal s (nullRefEnter s st)).active = st.active) ∧
    (∀ r, s.refAdapterName = some r →
      (nullRefExitNormal s (nullRefEnter s st)).active =
        s.modelAdapterName.getD "default") := by
  unfold nullRefEnter nullRefExitNormal usesDisableAdapter
  cases h : s.refAdapterName <;> cases hp : s.isPeftModel <;> simp [h, hp]

/-- Closed witness for the amended C3: a configured policy adapter `"pol"`
is the restore target after a normal exit. -/
theorem null_ref_restore_amended_witness :
    (nullRefExitNormal
      { isPeftModel := true, hasRefModel := false, refParamsRequireGrad := false,
        modelAdapterName := some "pol", refAdapterName := some "r1" }
      (nullRefEnter
        { isPeftModel := true, hasRefModel := false, refParamsRequireGrad := false,
          modelAdapterName := some "pol", refAdapterName := some "r1" }
        { active := "x", enabled := true })).active = "pol" :=
  (null_ref_restore_amended
    { isPeftModel := true, hasRefModel := false, refParamsRequireGrad := false,
      modelAdapterName := some "pol", refAdapterName := some "r1" }
    { active := "x", enabled := true }).2 "r1" rfl

/-- C5: constructing the DPO trainer with a non-null reference model and a
peft config, without `force_use_ref_model`, fails with the configuration
error at construction (no trainer state is ever produced, so no forward pass
can be attempted).  The two kwargs guards must not fire first, and peft must
be importable (otherwise the missing-library error fires instead). -/
theorem dpo_init_ref_model_peft_conflict (a : DpoInitArgs)
    (h1 : ¬ (a.modelInitKwargsGiven ∧ ¬ a.modelIsStr))
    (h2 : ¬ (a.refModelInitKwargsGiven ∧ ¬ a.refModelIsStr))
    (hp : a.peftAvailable = true) (hc : a.hasPeftConfig = true)
    (hr : a.hasRefModel = true) (hf : a.forceUseRefModel = false) :
    dpoInit a = Except.error DpoInitError.refModelTogetherWithPeftConfig := by
  unfold dpoInit
  rw [if_neg h1, if_neg h2, if_neg (by simp [hp]), if_pos ⟨hp, hc, hr, by simp [hf]⟩]

/-- Closed witness for C5: instantiated models, no kwargs, peft importable,
reference model and peft config both supplied, no force flag. -/
theorem dpo_init_ref_model_peft_conflict_witness :
    dpoInit
      { modelIsStr := false, refModelIsStr := false, modelInitKwargsGiven := false,
        refModelInitKwargsGiven := false, modelIsPeftModel := false, hasRefModel := true,
        hasPeftConfig := true, forceUseRefModel := false, modelAdapterName := none,
        refAdapterName := none, peftAvailable := true } =
      Except.error DpoInitError.refModelTogetherWithPeftConfig :=
  dpo_init_ref_model_peft_conflict
    { modelIsStr := false, refModelIsStr := false, modelInitKwargsGiven := false,
      refModelInitKwargsGiven := false, modelIsPeftModel := false, hasRefModel := true,
      hasPeftConfig := true, forceUseRefModel := false, modelAdapterName := none,
      refAdapterName := none, peftAvailable := true }
    (by simp) (by simp) rfl rfl rfl rfl

/-- C6 counterexample: constructing with `ref_model = None`, no peft config
and a policy model that is not adapter-augmented does NOT raise — lines
129–136 of `dpo_trainer.py` silently accept `ref_model = None` and
construction returns a trainer with `self.ref_model = None` and
`is_peft_model = False`. -/
theorem dpo_init_no_ref_counterexample :
    dpoInit
      { modelIsStr := false, refModelIsStr := false, modelInitKwargsGiven := false,
        refModelInitKwargsGiven := false, modelIsPeftModel := false, hasRefModel := false,
        hasPeftConfig := false, forceUseRefModel := false, modelAdapterName := none,
        refAdapterName := none, peftAvailable := true } =
      Except.ok
        { isPeftModel := false, hasRefModel := false, refParamsRequireGrad := false,
          modelAdapterName := none, refAdapterName := none } := rfl

/-- C6 amended: constructing with neither a reference model nor an
adapter-augmented policy succeeds without any error; the trainer is left
with `ref_model = None` and `is_peft_model = False`, and the forward engine
will fall back to re-running the policy model itself as the reference. -/
theorem dpo_init_no_ref_no_adapter_succeeds (a : DpoInitArgs)
    (h1 : a.modelInitKwargsGiven = false) (h2 : a.refModelInitKwargsGiven = false)
    (hr : a.hasRefModel = false) (hc : a.hasPeftConfig = false)
    (hm : a.modelIsPeftModel = false) :
    dpoInit a =
      Except.ok
        { isPeftModel := false, hasRefModel := false, refParamsRequireGrad := false,
          modelAdapterName := a.modelAdapterName, refAdapterName := a.refAdapterName } := by
  simp [dpoInit, h1, h2, hr, hc, hm]

/-- Closed witness for the amended C6. -/
theorem dpo_init_no_ref_no_adapter_succeeds_witness :
    dpoInit
      { modelIsStr := true, refModelIsStr := false, modelInitKwargsGiven := false,
        refModelInitKwargsGiven := false, modelIsPeftModel := false, hasRefModel := false,
        hasPeftConfig := false, forceUseRefModel := false, modelAdapterName := none,
        refAdapterName := none, peftAvailable := false } =
      Except.ok
        { isPeftModel := false, hasRefModel := false, refParamsRequireGrad := false,
          modelAdapterName := none, refAdapterName := none } :=
  dpo_init_no_ref_no_adapter_succeeds
    { modelIsStr := true, refModelIsStr := false, modelInitKwargsGiven := false,
      refModelInitKwargsGiven := false, modelIsPeftModel := false, hasRefModel := false,
      hasPeftConfig := false, forceUseRefModel := false, modelAdapterName := none,
      refAdapterName := none, peftAvailable := false }
    rfl rfl rfl rfl rfl

/-- C10: with `ref_model = None`, no peft config, a non-adapter-augmented
policy and no `ref_adapter_name`, construction succeeds; the null-reference
scope is the identity on the adapter state on every path (enter, normal
exit, exceptional exit); and `_forward` computes the reference logits by
running the unchanged policy model a second time on the same input and
adapter state, under no-grad — the reference distribution equals the current
policy distribution. -/
theorem dpo_degenerate_self_reference (a : DpoInitArgs) (m : ModelM)
    (st : AdapterState) (x : ℚ)
    (h1 : a.modelInitKwargsGiven = false) (h2 : a.refModelInitKwargsGiven = false)
    (hr : a.hasRefModel = false) (hc : a.hasPeftConfig = false)
    (hm : a.modelIsPeftModel = false) (hn : a.refAdapterName = none) :
    ∃ s, dpoInit a = Except.ok s ∧
      nullRefEnter s st = st ∧
      nullRefExitNormal s st = st ∧
      nullRefExitExceptional s st = st ∧
      (dpoForward s { model := m, refModel := none } st x).2.1.val = m.run st x ∧
      (dpoForward s { model := m, refModel := none } st x).2.1.deps = [] ∧
      (dpoForward s { model := m, refModel := none } st x).2.2 = st := by
  refine ⟨⟨false, false, false, a.modelAdapterName, a.refAdapterName⟩,
    ?_, ?_, ?_, ?_, ?_, ?_, ?_⟩
  · simp [dpoInit, h1, h2, hr, hc, hm]
  · simp [nullRefEnter, usesDisableAdapter, hn]
  · simp [nullRefExitNormal, usesDisableAdapter, hn]
  · simp [nullRefExitExceptional, usesDisableAdapter, hn]
  · simp [dpoForward, argparseForward, Tensor.toF32, nullRefEnter, usesDisableAdapter, hn]
  · simp [dpoForward, argparseForward, Tensor.toF32]
  · simp [dpoForward, nullRefEnter, nullRefExitNormal, usesDisableAdapter, hn]

/-- Closed witness for C10: the degenerate self-reference value on a
concrete model. -/
theorem dpo_degenerate_self_reference_witness :
    ∃ s, dpoInit
      { modelIsStr := false, refModelIsStr := false, modelInitKwargsGiven := false,
        refModelInitKwargsGiven := false, modelIsPeftModel := false, hasRefModel := false,
        hasPeftConfig := false, forceUseRefModel := false, modelAdapterName := none,
        refAdapterName := none, peftAvailable := true } = Except.ok s ∧
      nullRefEnter s { active := "default", enabled := true } =
        { active := "default", enabled := true } ∧
      nullRefExitNormal s { active := "default", enabled := true } =
        { active := "default", enabled := true } ∧
      nullRefExitExceptional s { active := "default", enabled := true } =
        { active := "default", enabled := true } ∧
      (dpoForward s
        { model := { params := [("w", true)], run := fun _ x => 2 * x, outDtype := DType.f16 },
          refModel := none }
        { active := "default", enabled := true } 5).2.1.val =
        ModelM.run { params := [("w", true)], run := fun _ x => 2 * x, outDtype := DType.f16 }
          { active := "default", enabled := true } 5 ∧
      (dpoForward s
        { model := { params := [("w", true)], run := fun _ x => 2 * x, outDtype := DType.f16 },
          refModel := none }
        { active := "default", enabled := true } 5).2.1.deps = [] ∧
      (dpoForward s
        { model := { params := [("w", true)], run := fun _ x => 2 * x, outDtype := DType.f16 },
          refModel := none }
        { active := "default", enabled := true } 5).2.2 =
        { active := "default", enabled := true } :=
  dpo_degenerate_self_reference
    { modelIsStr := false, refModelIsStr := false, modelInitKwargsGiven := false,
      refModelInitKwargsGiven := false, modelIsPeftModel := false, hasRefModel := false,
      hasPeftConfig := false, forceUseRefModel := false, modelAdapterName := none,
      refAdapterName := none, peftAvailable := true }
    { params := [("w", true)], run := fun _ x => 2 * x, outDtype := DType.f16 }
    { active := "default", enabled := true } 5 rfl rfl rfl rfl rfl rfl

/-- C4: `calculate_rewards` returns one scalar per input sample in the same
order; a single-element score tensor yields its element minus the baseline,
and a score tensor with more than one element yields the mean of its
elements minus the baseline.  (The function is a pure Lean definition:
freedom from side effects and referential transparency hold by
construction.) -/
theorem calculate_rewards_correct (scores : List (List ℚ)) (b : ℚ) :
    (calculate_rewards scores b).length = scores.length ∧
    ∀ i, i < scores.length →
      (∀ x, scores.getD i [] = [x] → (calculate_rewards scores b).getD i 0 = x - b) ∧
      (1 < (scores.getD i []).length →
        (calculate_rewards scores b).getD i 0 = listMean (scores.getD i []) - b) := by
  constructor
  · simp [calculate_rewards]
  · intro i
    induction scores generalizing i with
    | nil => intro hi; simp at hi
    | cons hd tl ih =>
      intro hi
      cases i with
      | zero =>
        constructor
        · intro x hx
          simp only [List.getD_cons_zero] at hx
          subst hx
          simp [calculate_rewards]
        · intro hlen
          simp only [List.getD_cons_zero] at hlen ⊢
          rcases hd with _ | ⟨y, _ | ⟨z, t⟩⟩
          · simp at hlen
          · simp at hlen
          · simp [calculate_rewards]
      | succ n =>
        have hn : n < tl.length := by simpa using hi
        have h := ih n hn
        simpa [calculate_rewards] using h

/-- Closed witness for C4, matching the spec's examples: scores
`[[5/2]]` with baseline `1/2` yield `[2]`, and scores `[[1, 3]]` with
baseline `0` yield `[2]`. -/
theorem calculate_rewards_correct_witness :
    (calculate_rewards [[(5 : ℚ)/2]] (1/2)).getD 0 0 = 2 ∧
    (calculate_rewards [[(1 : ℚ), 3]] 0).getD 0 0 = 2 := by
  have h1 := ((calculate_rewards_correct [[(5 : ℚ)/2]] (1/2)).2 0 (by simp)).1
    ((5 : ℚ)/2) rfl
  have h2 := ((calculate_rewards_correct [[(1 : ℚ), 3]] 0).2 0 (by simp)).2
    (by simp)
  rw [h1, h2]
  norm_num [listMean]

/-- C7: after `train_step` sets the gating flag, the first `step` call
consumes it and performs exactly one policy-gradient update (its statistics
are returned and the update count increments); a second `step` call without
a new generation cycle performs no update and returns the `None` sentinel,
leaving the state untouched. -/
theorem ppo_step_at_most_one_update (upd : StagedBatch → ℚ) (s : PpoState)
    (h : s.ppoStep = true) :
    (ppoTrlStep upd s).1 = some (upd s.staged) ∧
    (ppoTrlStep upd s).2.updateCount = s.updateCount + 1 ∧
    (ppoTrlStep upd (ppoTrlStep upd s).2).1 = none ∧
    (ppoTrlStep upd (ppoTrlStep upd s).2).2 = (ppoTrlStep upd s).2 := by
  simp [ppoTrlStep, h]

/-- Closed witness for C7: the second `step` call on a concrete state is a
no-op returning `none`. -/
theorem ppo_step_at_most_one_update_witness :
    (ppoTrlStep (fun _ => (0 : ℚ))
      (ppoTrlStep (fun _ => (0 : ℚ))
        { withLm := false, ppoStep := true,
          staged := { questionTensors := [], responseTensors := [], rewards := [] },
          updateCount := 0 }).2).1 = none := by
  have h := ppo_step_at_most_one_update (fun _ => (0 : ℚ))
    { withLm := false, ppoStep := true,
      staged := { questionTensors := [], responseTensors := [], rewards := [] },
      updateCount := 0 } rfl
  exact h.2.2.1

/-- C9 counterexample: when `batch_generate` raises, the `with_lm = False`
assignment on line 43 never runs (there is no `try/finally`), so the
decoding mode is left enabled instead of being restored to the prior
(disabled) mode. -/
theorem ppo_with_lm_exception_counterexample :
    (generatePhase (fun _ _ => Except.error "oom")
      { withLm := false, ppoStep := false,
        staged := { questionTensors := [], responseTensors := [], rewards := [] },
        updateCount := 0 } []).2.withLm = true := rfl

/-- C9 amended: the `with_lm` toggle is enabled for the batch-generate call
(the generator is invoked with the flag set); after a successful generation
it is set back to disabled (the nominal prior mode); but when generation
raises, the exception propagates with the toggle still enabled — it is not
restored on the exceptional path. -/
theorem ppo_with_lm_amended (gen : Bool → List (List ℤ) → Except String (List (List ℤ)))
    (s : PpoState) (q : List (List ℤ)) :
    (∀ r, gen true q = Except.ok r →
      (generatePhase gen s q).1 = Except.ok r ∧
      (generatePhase gen s q).2.withLm = false) ∧
    (∀ e, gen true q = Except.error e →
      (generatePhase gen s q).1 = Except.error e ∧
      (generatePhase gen s q).2.withLm = true) := by
  unfold generatePhase
  cases hg : gen true q <;> simp [hg]

/-- Closed witness for the amended C9: a failing generator leaves the toggle
enabled on a concrete state. -/
theorem ppo_with_lm_amended_witness :
    (generatePhase (fun _ _ => Except.error "fail")
      { withLm := false, ppoStep := true,
        staged := { questionTensors := [], responseTensors := [], rewards := [] },
        updateCount := 3 } [[1]]).2.withLm = true :=
  ((ppo_with_lm_amended (fun _ _ => Except.error "fail")
    { withLm := false, ppoStep := true,
      staged := { questionTensors := [], responseTensors := [], rewards := [] },
      updateCount := 3 } [[1]]).2 "fail" rfl).2

end Bert4Torch
